import Mathlib

/-!
# Verification of the AMC simulation core (amc_simulation)

Shallow embedding of the simulation orchestration core: transaction
processing and the holdings aggregate (`src/models/Transaction.js`),
SIP execution bookkeeping (`src/models/SIP.js`), NAV movement
(`src/models/Scheme.js`), the orchestrator state machine and the CAMS
settlement task (`src/services/SimulationService.js`), and the shared
helpers (`Utils.calculateUnits`, `Utils.addBusinessDays`,
`Utils.getNextSipExecutionDate`).

Conventions of the embedding:
* JavaScript numbers (amounts, NAVs, units) are modelled as `ℚ`;
  `Number.prototype.toFixed(p)` is modelled as exact decimal rounding
  (round half toward +∞, the ECMAScript tie rule) on `ℚ`.
* Timestamps/dates used by the settlement-date arithmetic are modelled as
  integer epoch-day counts (`ℤ`); 1970-01-01 (day 0) was a Thursday, so the
  JS `getDay()` of day `d` is `(d + 4) % 7`.
* Calendar dates used by SIP scheduling are modelled as year/month/day
  triples with the JS `setMonth`/`setFullYear` day-overflow normalisation.
* The relational rows a method touches are passed in and returned
  explicitly; the holdings table is a map `(folio_id, scheme_id) → Option Holding`.
* `Math.random()` draws are explicit `ℚ` parameters in `[0, 1)`;
  `getRandomElement` is an explicit index parameter.
* Only the fields the verified claims depend on are carried in the record
  types; dropped fields (remarks, contact data, ...) are never read by the
  embedded operations.
-/

namespace AMCSim

/-! ## Enumerated domain values (src/config/index.js) -/

inductive TxType
  | PURCHASE | REDEMPTION | SWITCH_IN | SWITCH_OUT | DIVIDEND
deriving DecidableEq, Repr

inductive TxMode
  | SIP | LUMPSUM | STP | SWP | REDEMPTION | DIVIDEND
deriving DecidableEq, Repr

inductive TxStatus
  | SUBMITTED | PROCESSED | REJECTED | CANCELLED
deriving DecidableEq, Repr

inductive CamsStatus
  | PENDING | PROCESSED | REJECTED | FAILED
deriving DecidableEq, Repr

inductive SipStatus
  | ACTIVE | PAUSED | CANCELLED | COMPLETED
deriving DecidableEq, Repr

inductive Frequency
  | MONTHLY | QUARTERLY | YEARLY
deriving DecidableEq, Repr

inductive SchemeCategory
  | EQUITY | DEBT | HYBRID | OTHER
deriving DecidableEq, Repr

inductive FolioStatus
  | ACTIVE | INACTIVE | CLOSED
deriving DecidableEq, Repr

/-! ## Numeric helpers (src/utils/helpers.js) -/

/-- `x.toFixed(p)` re-read as a number: round to `p` decimal places,
ties toward +∞ (the ECMAScript rule picks the larger candidate). -/
def roundToFixed (p : ℕ) (q : ℚ) : ℚ :=
  (⌊q * (10 : ℚ) ^ p + 1 / 2⌋ : ℤ) / (10 : ℚ) ^ p

/-- `Utils.calculateUnits`: `parseFloat((amount / nav).toFixed(6))`. -/
def calculateUnits (amount nav : ℚ) : ℚ :=
  roundToFixed 6 (amount / nav)

/-! ## Business-day arithmetic (Utils.addBusinessDays) -/

/-- JS `Date.prototype.getDay` for epoch day `d` (0 = Sunday .. 6 = Saturday);
day 0 = 1970-01-01 was a Thursday. -/
def dayOfWeek (d : ℤ) : ℤ := (d + 4) % 7

def isWeekend (d : ℤ) : Bool := dayOfWeek d == 0 || dayOfWeek d == 6

/-- One pass of the `addBusinessDays` loop: step forward one calendar day,
skipping over a weekend (at most two consecutive weekend days exist). -/
def nextBusinessDay (d : ℤ) : ℤ :=
  if !isWeekend (d + 1) then d + 1
  else if !isWeekend (d + 2) then d + 2
  else d + 3

/-- `Utils.addBusinessDays date days`: the `days`-th non-weekend day
strictly after `date`. -/
def addBusinessDays (date : ℤ) : ℕ → ℤ
  | 0 => date
  | n + 1 => nextBusinessDay (addBusinessDays date n)

/-! ## Calendar-month arithmetic (Utils.getNextSipExecutionDate) -/

/-- A calendar date as stored in the `DATE` columns; month is 1-based. -/
structure Ymd where
  year : ℤ
  month : ℤ
  day : ℤ
deriving DecidableEq, Repr

/-- `new Date(null)` / `new Date(0)`: the Unix epoch. -/
def epochYmd : Ymd := ⟨1970, 1, 1⟩

def isLeapYear (y : ℤ) : Bool :=
  (y % 4 == 0 && y % 100 != 0) || y % 400 == 0

def daysInMonth (y m : ℤ) : ℤ :=
  if m = 2 then (if isLeapYear y then 29 else 28)
  else if m = 4 ∨ m = 6 ∨ m = 9 ∨ m = 11 then 30
  else 31

/-- JS `Date` day-overflow normalisation after `setMonth`/`setFullYear`:
a day past the end of the month rolls into the following month (for a day
value coming from a valid date, `day ≤ 31`, a single roll suffices). -/
def fixDay (y m day : ℤ) : Ymd :=
  if day ≤ daysInMonth y m then ⟨y, m, day⟩
  else if m = 12 then ⟨y + 1, 1, day - daysInMonth y m⟩
  else ⟨y, m + 1, day - daysInMonth y m⟩

/-- `date.setMonth(date.getMonth() + k)`: floor-normalise the 0-based month
total into (year, month), then normalise the day. -/
def addMonthsJS (d : Ymd) (k : ℤ) : Ymd :=
  let t := (d.month - 1) + k
  fixDay (d.year + t.fdiv 12) (t.emod 12 + 1) d.day

/-- `date.setFullYear(date.getFullYear() + k)` (Feb 29 normalises to Mar 1
in a non-leap target year). -/
def setFullYearPlus (d : Ymd) (k : ℤ) : Ymd :=
  fixDay (d.year + k) d.month d.day

/-- `Utils.getNextSipExecutionDate` (the `default` branch of the source
switch coincides with `MONTHLY` and is unreachable for this enum). -/
def getNextSipExecutionDate (f : Frequency) (cur : Ymd) : Ymd :=
  match f with
  | .MONTHLY => addMonthsJS cur 1
  | .QUARTERLY => addMonthsJS cur 3
  | .YEARLY => setFullYearPlus cur 1

/-- Chronological strict order on calendar dates (JS `Date` comparison /
SQL `DATE` comparison). -/
def Ymd.ltb (a b : Ymd) : Bool :=
  a.year < b.year ||
    (a.year == b.year &&
      (a.month < b.month || (a.month == b.month && a.day < b.day)))

/-! ## Transactions and the holdings aggregate (src/models/Transaction.js) -/

/-- A row of the `transactions` table (claim-relevant columns). The `nav`
column is non-null on every creation path (`generateRandomTransaction` and
`SIP.execute` both supply it). -/
structure Transaction where
  id : ℕ
  transactionId : String
  folioId : ℕ
  schemeId : ℕ
  customerId : ℕ
  transactionType : TxType
  transactionMode : TxMode
  amount : ℚ
  units : ℚ
  nav : ℚ
  transactionDate : ℤ
  processDate : Option ℤ
  settlementDate : Option ℤ
  status : TxStatus
  camsStatus : CamsStatus
  camsProcessedDate : Option ℤ
  camsReferenceNumber : Option String
deriving DecidableEq, Repr

/-- `Transaction.prototype.isProcessed`. -/
def Transaction.isProcessed (t : Transaction) : Bool :=
  t.status == TxStatus.PROCESSED

/-- A row of the `holdings` table (per unique `(folio_id, scheme_id)` key).
`current_value` has SQL default 0 on insert. -/
structure Holding where
  customerId : ℕ
  totalUnits : ℚ
  investedAmount : ℚ
  currentValue : ℚ
  lastTransactionDate : ℤ
deriving DecidableEq, Repr

/-- The `holdings` table, keyed by its unique `(folio_id, scheme_id)`. -/
def Holdings : Type := ℕ × ℕ → Option Holding

/-- The single-statement `INSERT ... ON CONFLICT (folio_id, scheme_id)
DO UPDATE` of `Transaction.prototype.updateHoldings`. -/
def upsertHolding (folioId schemeId customerId : ℕ) (unitsChange amountChange : ℚ)
    (txDate : ℤ) (h : Holdings) : Holdings :=
  fun k =>
    if k = (folioId, schemeId) then
      match h (folioId, schemeId) with
      | none =>
          some { customerId := customerId, totalUnits := unitsChange,
                 investedAmount := amountChange, currentValue := 0,
                 lastTransactionDate := txDate }
      | some old =>
          some { old with totalUnits := old.totalUnits + unitsChange,
                          investedAmount := old.investedAmount + amountChange,
                          lastTransactionDate := txDate }
    else h k

/-- `Transaction.prototype.updateCurrentValue`: reprice the holding at the
scheme's current NAV (`SELECT nav FROM schemes WHERE id = holdings.scheme_id`). -/
def updateCurrentValue (folioId schemeId : ℕ) (schemeNav : ℚ) (h : Holdings) : Holdings :=
  fun k =>
    if k = (folioId, schemeId) then
      (h k).map fun hd => { hd with currentValue := hd.totalUnits * schemeNav }
    else h k

/-- `Transaction.prototype.updateHoldings`: signed contribution (negated for
`transaction_mode = REDEMPTION`), atomic upsert, then revaluation at the
scheme's latest NAV. -/
def Transaction.updateHoldings (t : Transaction) (schemeNav : ℚ) (h : Holdings) : Holdings :=
  let unitsChange := if t.transactionMode = TxMode.REDEMPTION then -t.units else t.units
  let amountChange := if t.transactionMode = TxMode.REDEMPTION then -t.amount else t.amount
  updateCurrentValue t.folioId t.schemeId schemeNav
    (upsertHolding t.folioId t.schemeId t.customerId unitsChange amountChange
      (t.processDate.getD t.transactionDate) h)

/-- `Transaction.prototype.process(nav)`: compute units, stamp process and
settlement dates (+3 business days for `transaction_type = REDEMPTION`,
+1 otherwise), move the lifecycle status to PROCESSED, then update holdings.
`today` is `new Date()`; `schemeNav` is the scheme's current NAV read by the
revaluation statement. -/
def Transaction.process (t : Transaction) (nav : ℚ) (today : ℤ) (schemeNav : ℚ)
    (h : Holdings) : Transaction × Holdings :=
  let units := calculateUnits t.amount nav
  let settlementDate :=
    addBusinessDays today (if t.transactionType = TxType.REDEMPTION then 3 else 1)
  let t' := { t with units := units, nav := nav, processDate := some today,
                     settlementDate := some settlementDate,
                     status := TxStatus.PROCESSED }
  (t', t'.updateHoldings schemeNav h)

/-- `Transaction.prototype.updateCAMSStatus`. -/
def Transaction.updateCAMSStatus (t : Transaction) (st : CamsStatus) (now : ℤ)
    (ref : Option String) : Transaction :=
  { t with camsStatus := st, camsProcessedDate := some now,
           camsReferenceNumber := ref }

/-- The row filter of `Transaction.findPendingForCAMS`:
`cams_status = PENDING AND status = SUBMITTED AND transaction_date <= cutoff`. -/
def pendingForCAMS (cutoff : ℤ) (t : Transaction) : Bool :=
  t.camsStatus == CamsStatus.PENDING && t.status == TxStatus.SUBMITTED &&
    t.transactionDate ≤ cutoff

/-! ## CAMS settlement simulation (SimulationService) -/

/-- The return value of `SimulationService.simulateCAMSProcessing`. -/
structure CamsResult where
  success : Bool
  reason : Option String
deriving DecidableEq, Repr

/-- The fixed rejection-reason set of `simulateCAMSProcessing`. -/
def camsRejectionReasons : List String :=
  ["Insufficient funds", "Invalid PAN", "KYC not completed",
   "Scheme not active", "Minimum investment not met"]

/-- `simulateCAMSProcessing` with the `Math.random()` draw `r` explicit;
`reasonIdx` stands for the uniform index draw of `getRandomElement`
(`Math.floor(Math.random() * array.length)`, always in range, embedded
here as `reasonIdx % length`). -/
def simulateCAMSProcessing (r : ℚ) (reasonIdx : ℕ) : CamsResult :=
  if r < mkRat 85 100 then
    { success := true, reason := none }
  else if r < mkRat 95 100 then
    { success := false,
      reason := some (camsRejectionReasons.getD
        (reasonIdx % camsRejectionReasons.length) "") }
  else
    { success := false, reason := some "Technical failure - will retry" }

def CamsResult.isTechnicalFailure (c : CamsResult) : Bool :=
  !c.success && c.reason == some "Technical failure - will retry"

def CamsResult.isBusinessRejection (c : CamsResult) : Bool :=
  !c.success && !(c.reason == some "Technical failure - will retry")

/-- The per-transaction processing guard of the settlement task
(`startCAMSProcessing` loop body, success branch, before the CAMS status
update): invoke `process(transaction.nav)` only when `isProcessed()` is
false. -/
def camsGuardedProcess (today : ℤ) (schemeNav : ℚ) (p : Transaction × Holdings) :
    Transaction × Holdings :=
  if p.1.isProcessed then p else p.1.process p.1.nav today schemeNav p.2

/-- The randomness consumed by one settlement-task iteration for one
transaction, plus the ambient clock/cutoff/scheme state. -/
structure CamsDraw where
  r : ℚ
  reasonIdx : ℕ
  today : ℤ
  cutoff : ℤ
  schemeNav : ℚ
  ref : String
deriving Repr

/-- One full `startCAMSProcessing` loop body for one (already selected)
transaction: simulate the outcome, on success run the guarded processing and
mark the settlement PROCESSED with a generated reference, otherwise mark it
REJECTED. -/
def camsSettleOne (d : CamsDraw) (t : Transaction) (h : Holdings) :
    Transaction × Holdings :=
  let outcome := simulateCAMSProcessing d.r d.reasonIdx
  if outcome.success then
    let p := camsGuardedProcess d.today d.schemeNav (t, h)
    (p.1.updateCAMSStatus CamsStatus.PROCESSED d.today (some d.ref), p.2)
  else
    (t.updateCAMSStatus CamsStatus.REJECTED d.today (some d.ref), h)

/-- The settlement task as seen by a single transaction: the task touches it
exactly when `findPendingForCAMS` selects it (the batch limit of 20 can only
shrink the selection further). -/
def camsTaskStep (d : CamsDraw) (p : Transaction × Holdings) :
    Transaction × Holdings :=
  if pendingForCAMS d.cutoff p.1 then camsSettleOne d p.1 p.2 else p

/-- Any number of settlement-task firings observed by one transaction. -/
def camsTaskRun (ds : List CamsDraw) (p : Transaction × Holdings) :
    Transaction × Holdings :=
  ds.foldl (fun acc d => camsTaskStep d acc) p

/-! ## SIP registrations (src/models/SIP.js) -/

/-- A row of the `sip_registrations` table (claim-relevant columns).
`max_executions` is `null` or positive: both the constructor and `create`
coerce a falsy 0 to `null`. -/
structure SIPRec where
  id : ℕ
  sipId : String
  customerId : ℕ
  folioId : ℕ
  schemeId : ℕ
  amount : ℚ
  frequency : Frequency
  startDate : Ymd
  endDate : Option Ymd
  nextExecutionDate : Option Ymd
  status : SipStatus
  executionCount : ℕ
  maxExecutions : Option ℕ
deriving DecidableEq, Repr

/-- `SIP.prototype.updateAfterExecution`: increment the execution count,
advance the next execution date (`new Date(null)` is the epoch), decide
completion (max-executions check first, then end-date check; a falsy
`maxExecutions` of 0 never triggers), and store `null` as the next execution
date when completed. -/
def updateAfterExecution (s : SIPRec) : SIPRec :=
  let newExecutionCount := s.executionCount + 1
  let nextDate := getNextSipExecutionDate s.frequency (s.nextExecutionDate.getD epochYmd)
  let maxHit : Bool :=
    match s.maxExecutions with
    | some m => m ≠ 0 && m ≤ newExecutionCount
    | none => false
  let endHit : Bool :=
    match s.endDate with
    | some e => Ymd.ltb e nextDate
    | none => false
  let newStatus :=
    if maxHit then SipStatus.COMPLETED
    else if endHit then SipStatus.COMPLETED
    else s.status
  { s with executionCount := newExecutionCount,
           nextExecutionDate :=
             if newStatus = SipStatus.COMPLETED then none else some nextDate,
           status := newStatus }

/-- The row filter of `SIP.findDueForExecution`: ACTIVE, next execution date
arrived (SQL `NULL <= today` is not true), end date not passed, max
executions not reached. -/
def dueForExecution (today : Ymd) (s : SIPRec) : Bool :=
  s.status == SipStatus.ACTIVE &&
    (match s.nextExecutionDate with
     | some d => !Ymd.ltb today d
     | none => false) &&
    (match s.endDate with
     | some e => !Ymd.ltb e today
     | none => true) &&
    (match s.maxExecutions with
     | some m => s.executionCount < m
     | none => true)

/-- `SIP.prototype.execute(nav)`: create a SUBMITTED/PENDING PURCHASE-SIP
transaction for this SIP's amount at the supplied NAV, process it
immediately, then update the SIP bookkeeping. `txDbId`/`txId` stand for the
generated row id and `Utils.generateTransactionId()`. -/
def sipExecute (s : SIPRec) (nav : ℚ) (txId : String) (txDbId : ℕ) (today : ℤ)
    (schemeNav : ℚ) (h : Holdings) : Transaction × SIPRec × Holdings :=
  let t0 : Transaction :=
    { id := txDbId, transactionId := txId, folioId := s.folioId,
      schemeId := s.schemeId, customerId := s.customerId,
      transactionType := TxType.PURCHASE, transactionMode := TxMode.SIP,
      amount := s.amount, units := 0, nav := nav, transactionDate := today,
      processDate := none, settlementDate := none,
      status := TxStatus.SUBMITTED, camsStatus := CamsStatus.PENDING,
      camsProcessedDate := none, camsReferenceNumber := none }
  let p := t0.process nav today schemeNav h
  (p.1, updateAfterExecution s, p.2)

/-- `m` applications of the SIP bookkeeping update (one per successful
`execute()` call). -/
def sipExecN : ℕ → SIPRec → SIPRec
  | 0, s => s
  | n + 1, s => updateAfterExecution (sipExecN n s)

/-! ## NAV movement (Scheme.prototype.simulateNAVMovement) -/

/-- The category-dependent random-walk step: `(Math.random() - 0.5) * factor`
with factor 0.04 (EQUITY), 0.004 (DEBT), 0.02 (HYBRID and the default
branch). -/
def navChangeFactor (cat : SchemeCategory) (r : ℚ) : ℚ :=
  match cat with
  | .EQUITY => (r - 1 / 2) * (4 / 100)
  | .DEBT => (r - 1 / 2) * (4 / 1000)
  | .HYBRID => (r - 1 / 2) * (2 / 100)
  | .OTHER => (r - 1 / 2) * (2 / 100)

/-- `simulateNAVMovement`: apply the random-walk change to the current NAV,
round to 4 decimals, floor at 1.0000. -/
def simulateNAVMovement (cat : SchemeCategory) (nav r : ℚ) : ℚ :=
  max (roundToFixed 4 (nav * (1 + navChangeFactor cat r))) 1

/-! ## Orchestrator state machine (SimulationService start/pause/resume) -/

inductive TaskName
  | customerCreation | folioCreation | transactionSimulation
  | camsProcessing | sipExecution | navUpdates
deriving DecidableEq, Repr

structure SimStats where
  customersCreated : ℕ
  foliosCreated : ℕ
  transactionsCreated : ℕ
  sipsCreated : ℕ
  camsProcessed : ℕ
deriving DecidableEq, Repr

/-- The mutable fields of the `SimulationService` singleton; `intervals`
records which recurring tasks hold a registered timer handle. -/
structure SimState where
  isRunning : Bool
  isPaused : Bool
  startTime : Option ℤ
  intervals : List TaskName
  stats : SimStats
deriving DecidableEq, Repr

/-- How an orchestrator operation returns to its caller: normally, with a
logged warning and no effect, or by throwing. -/
inductive SimOutcome
  | ok | warned | threw (msg : String)
deriving DecidableEq, Repr

/-- The six recurring tasks `start()`/`resume()` register. -/
def allTasks : List TaskName :=
  [.customerCreation, .folioCreation, .transactionSimulation,
   .camsProcessing, .sipExecution, .navUpdates]

/-- `SimulationService.start()`: warn and no-op when already running;
otherwise set the running flags and start time, seed schemes (`seedOk`
models whether `initializeSchemes` succeeds), and register every task.
On seed failure the running flag is rolled back and the error propagates. -/
def simStart (now : ℤ) (seedOk : Bool) (s : SimState) : SimState × SimOutcome :=
  if s.isRunning then (s, .warned)
  else
    let s1 := { s with isRunning := true, isPaused := false, startTime := some now }
    if seedOk then ({ s1 with intervals := allTasks }, .ok)
    else ({ s1 with isRunning := false }, .threw "Error starting simulation")

/-- `SimulationService.pause()`: throw "not running" on a stopped service
(before any mutation), warn and no-op when already paused, otherwise clear
every interval handle and set the paused flag. -/
def simPause (s : SimState) : SimState × SimOutcome :=
  if !s.isRunning then (s, .threw "Simulation is not running")
  else if s.isPaused then (s, .warned)
  else ({ s with intervals := [], isPaused := true }, .ok)

/-- `SimulationService.resume()`: throw "not running" on a stopped service,
warn and no-op when not paused, otherwise re-register every task and clear
the paused flag. -/
def simResume (s : SimState) : SimState × SimOutcome :=
  if !s.isRunning then (s, .threw "Simulation is not running")
  else if !s.isPaused then (s, .warned)
  else ({ s with intervals := allTasks, isPaused := false }, .ok)

/-! ## Customer / folio selection (Customer.js, SimulationService folio paths) -/

/-- A row of the `customers` table (claim-relevant columns). -/
structure Customer where
  id : ℕ
  createdAt : ℤ
deriving DecidableEq, Repr

/-- A row of the `folios` table (claim-relevant columns). -/
structure FolioRec where
  id : ℕ
  customerId : ℕ
  schemeId : ℕ
  status : FolioStatus
deriving DecidableEq, Repr

/-- The relational state the folio-creation paths read. `customers` is kept
in `created_at DESC` order (the order `Customer.findAll` returns). -/
structure Db where
  customers : List Customer
  folios : List FolioRec
deriving Repr

/-- `Customer.findAll(limit)`: `SELECT * FROM customers ORDER BY created_at
DESC LIMIT limit` (offset 0 on every simulation path). -/
def findAllCustomers (limit : ℕ) (db : Db) : List Customer :=
  db.customers.take limit

/-- The customer's count of ACTIVE folios: `COUNT(f.id)` over the
`LEFT JOIN folios f ON ... AND f.status = 'ACTIVE'` of
`getCustomersEligibleForNewFolio`. -/
def countActiveFolios (db : Db) (cid : ℕ) : ℕ :=
  (db.folios.filter fun f =>
    f.customerId == cid && f.status == FolioStatus.ACTIVE).length

/-- `Customer.getCustomersEligibleForNewFolio(maxFolios)`: customers
`HAVING COUNT(f.id) < maxFolios`, in a random order (`shuffle` stands for
`ORDER BY RANDOM()`), limited to 10. -/
def getCustomersEligibleForNewFolio (maxFolios : ℕ) (db : Db)
    (shuffle : List Customer → List Customer) : List Customer :=
  (shuffle (db.customers.filter fun c =>
    countActiveFolios db c.id < maxFolios)).take 10

/-- The target pick of the existing-customer timer path
(`createFolioForExistingCustomer`): `Utils.getRandomElement` over the
eligible list, with the uniform index draw explicit. -/
def selectExistingCustomerFolioTarget (maxFolios : ℕ) (db : Db)
    (shuffle : List Customer → List Customer) (idx : ℕ) : Option Customer :=
  (getCustomersEligibleForNewFolio maxFolios db shuffle).get? idx

/-- The target pick of the manual path (`SimulationService.createFolios`):
`Utils.getRandomElement(await Customer.findAll(50))` — no folio-cap check. -/
def selectManualFolioTarget (db : Db) (idx : ℕ) : Option Customer :=
  (findAllCustomers 50 db).get? idx

/-! ## Supporting lemmas -/

lemma isWeekend_true_iff (d : ℤ) :
    isWeekend d = true ↔ (d + 4) % 7 = 0 ∨ (d + 4) % 7 = 6 := by
  simp [isWeekend, dayOfWeek]

lemma isWeekend_nextBusinessDay (d : ℤ) :
    isWeekend (nextBusinessDay d) = false := by
  unfold nextBusinessDay
  split_ifs with h1 h2
  · simpa using h1
  · simpa using h2
  · simp at h1 h2
    rw [isWeekend_true_iff] at h1 h2
    rw [Bool.eq_false_iff, Ne, isWeekend_true_iff]
    omega

lemma lt_nextBusinessDay (d : ℤ) : d < nextBusinessDay d := by
  unfold nextBusinessDay
  split_ifs <;> omega

lemma le_addBusinessDays (d : ℤ) (n : ℕ) : d ≤ addBusinessDays d n := by
  induction n with
  | zero => exact le_refl d
  | succ k ih =>
      exact le_trans ih (le_of_lt (lt_nextBusinessDay (addBusinessDays d k)))

lemma addBusinessDays_succ_spec (d : ℤ) (k : ℕ) :
    isWeekend (addBusinessDays d (k + 1)) = false ∧ d < addBusinessDays d (k + 1) := by
  refine ⟨isWeekend_nextBusinessDay (addBusinessDays d k), ?_⟩
  exact lt_of_le_of_lt (le_addBusinessDays d k) (lt_nextBusinessDay (addBusinessDays d k))

lemma process_fst_status (t : Transaction) (nav : ℚ) (today : ℤ) (schemeNav : ℚ)
    (h : Holdings) :
    (t.process nav today schemeNav h).1.status = TxStatus.PROCESSED := rfl

lemma process_fst_isProcessed (t : Transaction) (nav : ℚ) (today : ℤ) (schemeNav : ℚ)
    (h : Holdings) :
    (t.process nav today schemeNav h).1.isProcessed = true := rfl

/-! ## Claim theorems -/

/-- C1: running a transaction through the settlement task's processing path
twice — `process(nav)` is invoked only when `isProcessed()` is false — gives
exactly the same transaction/holdings state as running it once; in
particular the Holding aggregate at the transaction's (folio, scheme) key is
identical. Guarded settlement processing is idempotent. -/
theorem guarded_settlement_processing_idempotent (today : ℤ) (schemeNav : ℚ)
    (p : Transaction × Holdings) :
    camsGuardedProcess today schemeNav (camsGuardedProcess today schemeNav p) =
      camsGuardedProcess today schemeNav p ∧
    (camsGuardedProcess today schemeNav (camsGuardedProcess today schemeNav p)).2
        (p.1.folioId, p.1.schemeId) =
      (camsGuardedProcess today schemeNav p).2 (p.1.folioId, p.1.schemeId) := by
  have hmain : camsGuardedProcess today schemeNav (camsGuardedProcess today schemeNav p) =
      camsGuardedProcess today schemeNav p := by
    by_cases h : p.1.isProcessed = true
    · simp [camsGuardedProcess, h]
    · have h' : p.1.isProcessed = false := by
        exact Bool.eq_false_iff.mpr h
      simp [camsGuardedProcess, h', process_fst_isProcessed]
  exact ⟨hmain, by rw [hmain]⟩

/-- C2: the holdings upsert for a processed transaction adds the signed
contribution — `(-units, -amount)` exactly for REDEMPTION mode, `(units,
amount)` for every other mode — to the existing totals at the (folio,
scheme) key (or starts from zero on first insert, keeping the inserting
transaction's customer id), and the final `current_value` is the new total
units times the scheme's latest NAV (`schemeNav`), not the transaction's
own NAV. -/
theorem holdings_upsert_signed_contribution (t : Transaction) (schemeNav : ℚ)
    (h : Holdings) :
    let key := (t.folioId, t.schemeId)
    let contrib : ℚ × ℚ :=
      if t.transactionMode = TxMode.REDEMPTION then (-t.units, -t.amount)
      else (t.units, t.amount)
    let prevUnits := ((h key).map Holding.totalUnits).getD 0
    let prevAmount := ((h key).map Holding.investedAmount).getD 0
    t.updateHoldings schemeNav h key =
      some { customerId := ((h key).map Holding.customerId).getD t.customerId,
             totalUnits := prevUnits + contrib.1,
             investedAmount := prevAmount + contrib.2,
             currentValue := (prevUnits + contrib.1) * schemeNav,
             lastTransactionDate := t.processDate.getD t.transactionDate } := by
  intro key contrib prevUnits prevAmount
  by_cases hm : t.transactionMode = TxMode.REDEMPTION <;>
    cases hk : h (t.folioId, t.schemeId) <;>
      simp [Transaction.updateHoldings, upsertHolding, updateCurrentValue, key,
        contrib, prevUnits, prevAmount, hk, hm]

/-- C3: `process(nav)` sets units to `amount / nav` rounded to 6 decimal
places, stamps the process date, sets the settlement date to the process
date plus 3 business days for REDEMPTION transaction types and plus 1
business day otherwise — landing strictly later on a non-weekend day —
moves the lifecycle status to PROCESSED, and applies the holdings update to
the processed transaction. -/
theorem process_transaction_spec (t : Transaction) (nav schemeNav : ℚ) (today : ℤ)
    (h : Holdings) :
    let n : ℕ := if t.transactionType = TxType.REDEMPTION then 3 else 1
    (t.process nav today schemeNav h).1.units = roundToFixed 6 (t.amount / nav) ∧
    (t.process nav today schemeNav h).1.processDate = some today ∧
    (t.process nav today schemeNav h).1.settlementDate =
      some (addBusinessDays today n) ∧
    isWeekend (addBusinessDays today n) = false ∧
    today < addBusinessDays today n ∧
    (t.process nav today schemeNav h).1.status = TxStatus.PROCESSED ∧
    (t.process nav today schemeNav h).2 =
      Transaction.updateHoldings (t.process nav today schemeNav h).1 schemeNav h := by
  intro n
  have hn : ∃ k, n = k + 1 := by
    by_cases hty : t.transactionType = TxType.REDEMPTION <;> simp [n, hty]
  obtain ⟨k, hk⟩ := hn
  refine ⟨rfl, rfl, rfl, ?_, ?_, rfl, rfl⟩
  · rw [hk]; exact (addBusinessDays_succ_spec today k).1
  · rw [hk]; exact (addBusinessDays_succ_spec today k).2

lemma updateAfterExecution_maxExecutions (s : SIPRec) :
    (updateAfterExecution s).maxExecutions = s.maxExecutions := rfl

lemma updateAfterExecution_executionCount (s : SIPRec) :
    (updateAfterExecution s).executionCount = s.executionCount + 1 := rfl

lemma sipExecN_maxExecutions (n : ℕ) (s : SIPRec) :
    (sipExecN n s).maxExecutions = s.maxExecutions := by
  induction n with
  | zero => rfl
  | succ k ih => rw [sipExecN, updateAfterExecution_maxExecutions, ih]

lemma sipExecN_executionCount (n : ℕ) (s : SIPRec) :
    (sipExecN n s).executionCount = s.executionCount + n := by
  induction n with
  | zero => rfl
  | succ k ih => rw [sipExecN, updateAfterExecution_executionCount, ih]; omega

lemma updateAfterExecution_completes (s : SIPRec) (m : ℕ)
    (hmax : s.maxExecutions = some m) (hm0 : m ≠ 0)
    (hreach : m ≤ s.executionCount + 1) :
    (updateAfterExecution s).status = SipStatus.COMPLETED ∧
    (updateAfterExecution s).nextExecutionDate = none := by
  unfold updateAfterExecution
  simp [hmax, hm0, hreach]

/-- C4: a SIP with `maxExecutions = m` (necessarily positive: a zero is
coerced to null on creation) reaches status COMPLETED with a null
next-execution-date after exactly `m` execution updates, and
`findDueForExecution`'s row filter can never match it again, so no
`(m+1)`-th execution is possible. -/
theorem sip_max_executions_terminates (s : SIPRec) (m : ℕ)
    (h0 : s.executionCount = 0) (hmax : s.maxExecutions = some m) (hm : 0 < m) :
    (sipExecN m s).status = SipStatus.COMPLETED ∧
    (sipExecN m s).nextExecutionDate = none ∧
    ∀ today : Ymd, dueForExecution today (sipExecN m s) = false := by
  obtain ⟨k, rfl⟩ : ∃ k, m = k + 1 := ⟨m - 1, by omega⟩
  have hmax' : (sipExecN k s).maxExecutions = some (k + 1) := by
    rw [sipExecN_maxExecutions, hmax]
  have hcount : (sipExecN k s).executionCount = k := by
    rw [sipExecN_executionCount, h0]; omega
  have hcomp := updateAfterExecution_completes (sipExecN k s) (k + 1) hmax'
    (by omega) (by omega)
  have hstep : sipExecN (k + 1) s = updateAfterExecution (sipExecN k s) := rfl
  rw [hstep]
  refine ⟨hcomp.1, hcomp.2, fun today => ?_⟩
  simp [dueForExecution, hcomp.1]

/-- C4 witness: a concrete `maxExecutions = 3` SIP completes after the
third execution with a cleared next-execution-date and is never due
again. -/
theorem sip_max_executions_terminates_witness :
    (⟨1, "SIP1", 1, 1, 1, 500, .MONTHLY, ⟨2024, 1, 1⟩, none, some ⟨2024, 1, 1⟩,
        .ACTIVE, 0, some 3⟩ : SIPRec).executionCount = 0 ∧
    (⟨1, "SIP1", 1, 1, 1, 500, .MONTHLY, ⟨2024, 1, 1⟩, none, some ⟨2024, 1, 1⟩,
        .ACTIVE, 0, some 3⟩ : SIPRec).maxExecutions = some 3 ∧
    0 < 3 ∧
    (sipExecN 3 ⟨1, "SIP1", 1, 1, 1, 500, .MONTHLY, ⟨2024, 1, 1⟩, none,
        some ⟨2024, 1, 1⟩, .ACTIVE, 0, some 3⟩).status = SipStatus.COMPLETED ∧
    (sipExecN 3 ⟨1, "SIP1", 1, 1, 1, 500, .MONTHLY, ⟨2024, 1, 1⟩, none,
        some ⟨2024, 1, 1⟩, .ACTIVE, 0, some 3⟩).nextExecutionDate = none ∧
    dueForExecution ⟨2030, 1, 1⟩
      (sipExecN 3 ⟨1, "SIP1", 1, 1, 1, 500, .MONTHLY, ⟨2024, 1, 1⟩, none,
        some ⟨2024, 1, 1⟩, .ACTIVE, 0, some 3⟩) = false :=
  ⟨rfl, rfl, by decide,
    (sip_max_executions_terminates _ 3 rfl rfl (by decide)).1,
    (sip_max_executions_terminates _ 3 rfl rfl (by decide)).2.1,
    (sip_max_executions_terminates _ 3 rfl rfl (by decide)).2.2 ⟨2030, 1, 1⟩⟩

/-- C5: a successful execution of an ACTIVE SIP increments the execution
count by one and advances the next execution date by +1 month (MONTHLY),
+3 months (QUARTERLY) or +1 year (YEARLY); completion is decided in order —
max-executions reached first, then end-date exceeded by the *new* next
execution date — and otherwise the SIP stays ACTIVE with the advanced date
stored (a completed SIP stores a null next-execution-date). -/
theorem sip_update_after_execution_spec (s : SIPRec)
    (hactive : s.status = SipStatus.ACTIVE) (hmax0 : s.maxExecutions ≠ some 0) :
    let next := getNextSipExecutionDate s.frequency (s.nextExecutionDate.getD epochYmd)
    let newCount := s.executionCount + 1
    let maxHit : Bool := match s.maxExecutions with
      | some m => m ≤ newCount
      | none => false
    let endHit : Bool := match s.endDate with
      | some e => Ymd.ltb e next
      | none => false
    let st := if maxHit then SipStatus.COMPLETED
              else if endHit then SipStatus.COMPLETED
              else SipStatus.ACTIVE
    (updateAfterExecution s).executionCount = newCount ∧
    (updateAfterExecution s).status = st ∧
    (updateAfterExecution s).nextExecutionDate =
      (if st = SipStatus.COMPLETED then none else some next) ∧
    (∀ d : Ymd, getNextSipExecutionDate Frequency.MONTHLY d = addMonthsJS d 1) ∧
    (∀ d : Ymd, getNextSipExecutionDate Frequency.QUARTERLY d = addMonthsJS d 3) ∧
    (∀ d : Ymd, getNextSipExecutionDate Frequency.YEARLY d = setFullYearPlus d 1) := by
  intro next newCount maxHit endHit st
  refine ⟨rfl, ?_, ?_, fun d => rfl, fun d => rfl, fun d => rfl⟩ <;>
    · unfold updateAfterExecution
      cases hm : s.maxExecutions with
      | none => simp [hm, maxHit, endHit, st, next, newCount, hactive]
      | some mx =>
          have hm0 : mx ≠ 0 := by
            intro hx; exact hmax0 (by rw [hm, hx])
          simp [hm, hm0, maxHit, endHit, st, next, newCount, hactive]

/-- C5 witness: a concrete ACTIVE monthly SIP (12 max executions, count 0,
next execution 2024-01-01) advances to count 1, stays ACTIVE, and stores
2024-02-01. -/
theorem sip_update_after_execution_spec_witness :
    (⟨2, "SIP2", 1, 1, 1, 1000, .MONTHLY, ⟨2024, 1, 1⟩, none, some ⟨2024, 1, 1⟩,
        .ACTIVE, 0, some 12⟩ : SIPRec).status = SipStatus.ACTIVE ∧
    (⟨2, "SIP2", 1, 1, 1, 1000, .MONTHLY, ⟨2024, 1, 1⟩, none, some ⟨2024, 1, 1⟩,
        .ACTIVE, 0, some 12⟩ : SIPRec).maxExecutions ≠ some 0 ∧
    (updateAfterExecution ⟨2, "SIP2", 1, 1, 1, 1000, .MONTHLY, ⟨2024, 1, 1⟩, none,
        some ⟨2024, 1, 1⟩, .ACTIVE, 0, some 12⟩).executionCount = 1 ∧
    (updateAfterExecution ⟨2, "SIP2", 1, 1, 1, 1000, .MONTHLY, ⟨2024, 1, 1⟩, none,
        some ⟨2024, 1, 1⟩, .ACTIVE, 0, some 12⟩).status = SipStatus.ACTIVE ∧
    (updateAfterExecution ⟨2, "SIP2", 1, 1, 1, 1000, .MONTHLY, ⟨2024, 1, 1⟩, none,
        some ⟨2024, 1, 1⟩, .ACTIVE, 0, some 12⟩).nextExecutionDate =
      some ⟨2024, 2, 1⟩ :=
  ⟨rfl, by decide,
    (sip_update_after_execution_spec _ rfl (by decide)).1,
    (sip_update_after_execution_spec _ rfl (by decide)).2.1,
    (sip_update_after_execution_spec _ rfl (by decide)).2.2.1⟩

/-- C6 counterexample: with a configured maximum of 1 and a customer who
already holds 1 ACTIVE folio, the eligibility query correctly excludes the
customer, yet the manual `createFolios` path — which selects uniformly from
`Customer.findAll(50)` with no folio-cap check — still selects them (index
draw 0), so the claim's "never selected in any folio-creation path" is
false. -/
theorem folio_cap_bypassed_by_manual_path :
    countActiveFolios ⟨[⟨1, 0⟩], [⟨1, 1, 1, FolioStatus.ACTIVE⟩]⟩ 1 = 1 ∧
    ¬ countActiveFolios ⟨[⟨1, 0⟩], [⟨1, 1, 1, FolioStatus.ACTIVE⟩]⟩ 1 < 1 ∧
    getCustomersEligibleForNewFolio 1 ⟨[⟨1, 0⟩], [⟨1, 1, 1, FolioStatus.ACTIVE⟩]⟩
      id = [] ∧
    selectManualFolioTarget ⟨[⟨1, 0⟩], [⟨1, 1, 1, FolioStatus.ACTIVE⟩]⟩ 0 =
      some ⟨1, 0⟩ := by
  decide

/-- C6 amended: `getCustomersEligibleForNewFolio(m)` returns only customers
whose ACTIVE-folio count is strictly below `m`, so the existing-customer
timer path (`createFolioForExistingCustomer`) never targets a customer at
the cap; the new-customer timer path and the manual `createFolios` path do
not perform a folio-cap check. -/
theorem eligible_folio_customers_below_cap (m : ℕ) (db : Db)
    (shuffle : List Customer → List Customer)
    (hshuffle : ∀ l : List Customer, ∀ c ∈ shuffle l, c ∈ l) :
    (∀ c ∈ getCustomersEligibleForNewFolio m db shuffle,
      countActiveFolios db c.id < m) ∧
    (∀ (idx : ℕ) (c : Customer),
      selectExistingCustomerFolioTarget m db shuffle idx = some c →
      countActiveFolios db c.id < m) := by
  have hmem : ∀ c ∈ getCustomersEligibleForNewFolio m db shuffle,
      countActiveFolios db c.id < m := by
    intro c hc
    have h1 : c ∈ shuffle (db.customers.filter fun c =>
        countActiveFolios db c.id < m) :=
      List.mem_of_mem_take hc
    have h2 := hshuffle _ c h1
    simpa using (List.mem_filter.mp h2).2
  refine ⟨hmem, fun idx c hc => hmem c ?_⟩
  exact List.get?_mem hc

/-- C6 amended witness: with maximum 1 and a sole customer holding no
folios (identity order), every returned customer — in particular that one —
is below the cap, as is every existing-customer-path pick. -/
theorem eligible_folio_customers_below_cap_witness :
    (∀ c ∈ getCustomersEligibleForNewFolio 1 ⟨[⟨2, 0⟩], []⟩ id,
      countActiveFolios ⟨[⟨2, 0⟩], []⟩ c.id < 1) ∧
    countActiveFolios ⟨[⟨2, 0⟩], []⟩ 2 < 1 :=
  ⟨(eligible_folio_customers_below_cap 1 ⟨[⟨2, 0⟩], []⟩ id
      (fun _ _ hc => hc)).1,
    (eligible_folio_customers_below_cap 1 ⟨[⟨2, 0⟩], []⟩ id
      (fun _ _ hc => hc)).1 ⟨2, 0⟩ (by decide)⟩

/-- C7: orchestrator state-machine misuse performs no state change —
`pause()` on a non-running simulation throws the "not running" error,
`resume()` on a running but unpaused simulation only warns, and `start()`
on an already-running simulation only warns; in each case the flags,
counters and interval registry are returned untouched. -/
theorem sim_state_machine_misuse_noop (s : SimState) (now : ℤ) (seedOk : Bool) :
    (s.isRunning = false →
      simPause s = (s, SimOutcome.threw "Simulation is not running")) ∧
    (s.isRunning = true → s.isPaused = false →
      simResume s = (s, SimOutcome.warned)) ∧
    (s.isRunning = true → simStart now seedOk s = (s, SimOutcome.warned)) := by
  refine ⟨fun h => ?_, fun h1 h2 => ?_, fun h => ?_⟩
  · simp [simPause, h]
  · simp [simResume, h1, h2]
  · simp [simStart, h]

/-- C7 witness: the three misuse cases on concrete stopped / running
states. -/
theorem sim_state_machine_misuse_noop_witness :
    simPause ⟨false, false, none, [], ⟨0, 0, 0, 0, 0⟩⟩ =
      (⟨false, false, none, [], ⟨0, 0, 0, 0, 0⟩⟩,
        SimOutcome.threw "Simulation is not running") ∧
    simResume ⟨true, false, some 0, allTasks, ⟨0, 0, 0, 0, 0⟩⟩ =
      (⟨true, false, some 0, allTasks, ⟨0, 0, 0, 0, 0⟩⟩, SimOutcome.warned) ∧
    simStart 7 true ⟨true, false, some 0, allTasks, ⟨0, 0, 0, 0, 0⟩⟩ =
      (⟨true, false, some 0, allTasks, ⟨0, 0, 0, 0, 0⟩⟩, SimOutcome.warned) :=
  ⟨(sim_state_machine_misuse_noop _ 7 true).1 rfl,
    (sim_state_machine_misuse_noop _ 7 true).2.1 rfl rfl,
    (sim_state_machine_misuse_noop _ 7 true).2.2 rfl⟩

/-- C8: `simulateNAVMovement` never returns a value below 1.0000, for any
category, NAV and random draw; and for a draw in `[0, 1)` the random-walk
change factor applied before rounding and flooring is bounded by ±2% for
EQUITY, ±0.2% for DEBT, and ±1% for HYBRID and unknown categories. -/
theorem nav_movement_floor_and_bound (cat : SchemeCategory) (nav r : ℚ)
    (h0 : 0 ≤ r) (h1 : r < 1) :
    1 ≤ simulateNAVMovement cat nav r ∧
    |navChangeFactor cat r| ≤
      (match cat with
       | SchemeCategory.EQUITY => 2 / 100
       | SchemeCategory.DEBT => 2 / 1000
       | SchemeCategory.HYBRID => 1 / 100
       | SchemeCategory.OTHER => 1 / 100) := by
  refine ⟨le_max_right _ _, ?_⟩
  cases cat <;>
    · rw [abs_le]
      unfold navChangeFactor
      constructor <;> nlinarith

/-- C8 witness: EQUITY, NAV 10, draw 1/2. -/
theorem nav_movement_floor_and_bound_witness :
    (0 : ℚ) ≤ mkRat 1 2 ∧ (mkRat 1 2 : ℚ) < 1 ∧
    (1 ≤ simulateNAVMovement SchemeCategory.EQUITY 10 (mkRat 1 2) ∧
      |navChangeFactor SchemeCategory.EQUITY (mkRat 1 2)| ≤ 2 / 100) :=
  ⟨by decide, by decide,
    nav_movement_floor_and_bound SchemeCategory.EQUITY 10 (mkRat 1 2)
      (by decide) (by decide)⟩

/-- C9: `simulateCAMSProcessing` succeeds exactly for draws below 0.85,
returns a business rejection with a reason from the fixed five-element
reason set for draws in [0.85, 0.95), and the 'Technical failure - will
retry' outcome for draws at or above 0.95 — so over the uniform centesimal
draw grid the outcomes split 85% / 10% / 5% — and every non-success outcome
makes the settlement task set the settlement status to REJECTED. -/
theorem cams_outcome_distribution :
    (∀ (r : ℚ) (idx : ℕ),
      ((simulateCAMSProcessing r idx).success = true ↔ r < mkRat 85 100) ∧
      (mkRat 85 100 ≤ r → r < mkRat 95 100 →
        (simulateCAMSProcessing r idx).isBusinessRejection = true ∧
        ∃ reason, (simulateCAMSProcessing r idx).reason = some reason ∧
          reason ∈ camsRejectionReasons) ∧
      (mkRat 95 100 ≤ r →
        simulateCAMSProcessing r idx =
          { success := false, reason := some "Technical failure - will retry" })) ∧
    camsRejectionReasons.length = 5 ∧
    ((Finset.range 100).filter (fun k : ℕ =>
      (simulateCAMSProcessing (mkRat (k : ℤ) 100) 0).success = true)).card = 85 ∧
    ((Finset.range 100).filter (fun k : ℕ =>
      (simulateCAMSProcessing (mkRat (k : ℤ) 100) 0).isBusinessRejection
        = true)).card = 10 ∧
    ((Finset.range 100).filter (fun k : ℕ =>
      (simulateCAMSProcessing (mkRat (k : ℤ) 100) 0).isTechnicalFailure
        = true)).card = 5 ∧
    (∀ (d : CamsDraw) (t : Transaction) (h : Holdings),
      (simulateCAMSProcessing d.r d.reasonIdx).success = false →
      (camsSettleOne d t h).1.camsStatus = CamsStatus.REJECTED) := by
  refine ⟨fun r idx => ⟨?_, fun hlo hhi => ?_, fun hhi => ?_⟩,
    rfl, by decide, by decide, by decide, fun d t h hfail => ?_⟩
  · unfold simulateCAMSProcessing
    split_ifs with hc1 hc2
    · simpa using hc1
    · simpa using hc1
    · simpa using hc1
  · have hg : simulateCAMSProcessing r idx =
        { success := false,
          reason := some (camsRejectionReasons.getD
            (idx % camsRejectionReasons.length) "") } := by
      unfold simulateCAMSProcessing
      rw [if_neg (not_lt.mpr hlo), if_pos hhi]
    obtain ⟨j, hj, hjeq⟩ : ∃ j, j < 5 ∧ idx % camsRejectionReasons.length = j :=
      ⟨_, Nat.mod_lt idx (by decide), rfl⟩
    rw [hg, hjeq]
    refine ⟨?_, camsRejectionReasons.getD j "", rfl, ?_⟩ <;>
      · interval_cases j <;> decide
  · unfold simulateCAMSProcessing
    rw [if_neg, if_neg]
    · exact not_lt.mpr (le_trans (by decide) hhi)
    · exact not_lt.mpr (le_trans (by decide) hhi)
  · unfold camsSettleOne
    rw [if_neg (by simp [hfail])]
    rfl

/-- C9 witness: concrete draws in each band — 0.5 (success), 0.9 (business
rejection, reason from the fixed set), 0.99 (technical failure) — and a
non-success settlement step ending REJECTED. -/
theorem cams_outcome_distribution_witness :
    ((simulateCAMSProcessing (mkRat 1 2) 0).success = true ↔
      (mkRat 1 2 : ℚ) < mkRat 85 100) ∧
    (mkRat 85 100 : ℚ) ≤ mkRat 9 10 ∧ (mkRat 9 10 : ℚ) < mkRat 95 100 ∧
    ((simulateCAMSProcessing (mkRat 9 10) 2).isBusinessRejection = true ∧
      ∃ reason, (simulateCAMSProcessing (mkRat 9 10) 2).reason = some reason ∧
        reason ∈ camsRejectionReasons) ∧
    (mkRat 95 100 : ℚ) ≤ mkRat 99 100 ∧
    simulateCAMSProcessing (mkRat 99 100) 0 =
      { success := false, reason := some "Technical failure - will retry" } ∧
    (camsSettleOne ⟨mkRat 99 100, 0, 0, 0, 10, "REF"⟩
      ⟨1, "T1", 1, 1, 1, .PURCHASE, .LUMPSUM, 5000, 0, 10, 0, none, none,
        .SUBMITTED, .PENDING, none, none⟩
      (fun _ => none)).1.camsStatus = CamsStatus.REJECTED :=
  ⟨(cams_outcome_distribution.1 (mkRat 1 2) 0).1,
    by decide, by decide,
    (cams_outcome_distribution.1 (mkRat 9 10) 2).2.1 (by decide) (by decide),
    by decide,
    (cams_outcome_distribution.1 (mkRat 99 100) 0).2.2 (by decide),
    cams_outcome_distribution.2.2.2.2.2 ⟨mkRat 99 100, 0, 0, 0, 10, "REF"⟩
      ⟨1, "T1", 1, 1, 1, .PURCHASE, .LUMPSUM, 5000, 0, 10, 0, none, none,
        .SUBMITTED, .PENDING, none, none⟩
      (fun _ => none) (by decide)⟩

lemma pendingForCAMS_false_of_not_submitted (cutoff : ℤ) (t : Transaction)
    (ht : t.status ≠ TxStatus.SUBMITTED) : pendingForCAMS cutoff t = false := by
  simp [pendingForCAMS, ht]

lemma camsTaskRun_skips_not_submitted (t : Transaction)
    (ht : t.status ≠ TxStatus.SUBMITTED) (ds : List CamsDraw) (h : Holdings) :
    camsTaskRun ds (t, h) = (t, h) := by
  induction ds generalizing h with
  | nil => rfl
  | cons d ds ih =>
      have hstep : camsTaskStep d (t, h) = (t, h) := by
        unfold camsTaskStep
        rw [pendingForCAMS_false_of_not_submitted d.cutoff t ht]
        simp
      show camsTaskRun ds (camsTaskStep d (t, h)) = (t, h)
      rw [hstep]
      exact ih h

/-- C10: a transaction created by `SIP.execute` is processed immediately to
lifecycle PROCESSED while its settlement status stays PENDING;
`findPendingForCAMS` selects only SUBMITTED transactions, so it never
returns the SIP transaction, and under any sequence of settlement-task
firings its settlement status remains PENDING forever — it never reaches
the fully settled state (lifecycle PROCESSED and settlement PROCESSED). -/
theorem sip_transaction_never_cams_settled (s : SIPRec) (nav schemeNav : ℚ)
    (txId : String) (txDbId : ℕ) (today : ℤ) (h : Holdings) :
    let t := (sipExecute s nav txId txDbId today schemeNav h).1
    t.status = TxStatus.PROCESSED ∧
    t.camsStatus = CamsStatus.PENDING ∧
    (∀ (cutoff : ℤ) (u : Transaction), pendingForCAMS cutoff u = true →
      u.status = TxStatus.SUBMITTED) ∧
    (∀ cutoff : ℤ, pendingForCAMS cutoff t = false) ∧
    (∀ (ds : List CamsDraw) (h' : Holdings),
      (camsTaskRun ds (t, h')).1.camsStatus = CamsStatus.PENDING ∧
      ¬((camsTaskRun ds (t, h')).1.status = TxStatus.PROCESSED ∧
        (camsTaskRun ds (t, h')).1.camsStatus = CamsStatus.PROCESSED)) := by
  intro t
  have hstatus : t.status = TxStatus.PROCESSED := rfl
  have hns : t.status ≠ TxStatus.SUBMITTED := by rw [hstatus]; decide
  refine ⟨hstatus, rfl, fun cutoff u hu => ?_, fun cutoff => ?_, fun ds h' => ?_⟩
  · have := of_decide_eq_true ((Bool.and_eq_true _ _).mp
      ((Bool.and_eq_true _ _).mp hu).1).2
    simpa using this
  · exact pendingForCAMS_false_of_not_submitted cutoff t hns
  · have hpend : (camsTaskRun ds (t, h')).1.camsStatus = CamsStatus.PENDING := by
      rw [camsTaskRun_skips_not_submitted t hns ds h']
      rfl
    refine ⟨hpend, fun hc => ?_⟩
    rw [hpend] at hc
    exact absurd hc.2 (by decide)

/-- A concrete SIP used by the C10 witness. -/
def c10SipInput : SIPRec :=
  ⟨3, "SIP3", 1, 1, 1, 1000, .MONTHLY, ⟨2024, 1, 1⟩, none, some ⟨2024, 1, 1⟩,
    .ACTIVE, 0, none⟩

/-- A concrete SUBMITTED/PENDING transaction used by the C10 witness. -/
def c10PendingTx : Transaction :=
  ⟨1, "T1", 1, 1, 1, .PURCHASE, .LUMPSUM, 5000, 0, 10, 0, none, none,
    .SUBMITTED, .PENDING, none, none⟩

/-- C10 witness: a concrete SIP execution — the transaction is PROCESSED,
settlement-PENDING, never selected by the settlement filter (concrete
cutoff 100), unchanged by a concrete settlement firing, and a concrete
SUBMITTED/PENDING transaction satisfying the filter is indeed SUBMITTED. -/
theorem sip_transaction_never_cams_settled_witness :
    (sipExecute c10SipInput 10 "T2" 2 0 10 (fun _ => none)).1.status =
      TxStatus.PROCESSED ∧
    (sipExecute c10SipInput 10 "T2" 2 0 10 (fun _ => none)).1.camsStatus =
      CamsStatus.PENDING ∧
    pendingForCAMS 100 c10PendingTx = true ∧
    c10PendingTx.status = TxStatus.SUBMITTED ∧
    pendingForCAMS 100
      (sipExecute c10SipInput 10 "T2" 2 0 10 (fun _ => none)).1 = false ∧
    (camsTaskRun [⟨mkRat 1 2, 0, 0, 100, 10, "REF"⟩]
      ((sipExecute c10SipInput 10 "T2" 2 0 10 (fun _ => none)).1,
        fun _ => none)).1.camsStatus = CamsStatus.PENDING :=
  ⟨(sip_transaction_never_cams_settled c10SipInput 10 10 "T2" 2 0
      (fun _ => none)).1,
    (sip_transaction_never_cams_settled c10SipInput 10 10 "T2" 2 0
      (fun _ => none)).2.1,
    by decide,
    (sip_transaction_never_cams_settled c10SipInput 10 10 "T2" 2 0
      (fun _ => none)).2.2.1 100 c10PendingTx (by decide),
    (sip_transaction_never_cams_settled c10SipInput 10 10 "T2" 2 0
      (fun _ => none)).2.2.2.1 100,
    ((sip_transaction_never_cams_settled c10SipInput 10 10 "T2" 2 0
      (fun _ => none)).2.2.2.2 [⟨mkRat 1 2, 0, 0, 100, 10, "REF"⟩]
      (fun _ => none)).1⟩

end AMCSim
